import Mathlib

/-!
Verification of the incant instance-lifecycle engine against its design
specification.  The Python source (incus_cli.py, config_manager.py,
incant.py) is shallowly embedded: every external command invocation is
resolved through an explicit oracle ("world") giving that command's
outcome, and each operation returns an `Except` value (the raised
exception, if any) together with a trace of the externally visible
effects the claims talk about (commands issued, files left behind).
-/

namespace Incant

/-- The exception taxonomy.  `CalledProcessError` is the subprocess
library's own exception (carrying the exit status and the command).
The remaining constructors are this tool's exception classes.
Modelled from the spec: the repository's `exceptions.py` (which defines
the tool's exception classes) is not under src/; per spec section 7 the
taxonomy is ConfigurationError / InstanceError / CommandError, the
tool's own exception types, so `IncusCommandError` is a distinct class
and not a subclass of the subprocess library's `CalledProcessError`.
`TypeError` and `AttributeError` stand for the Python built-in errors
raised by duck-typed operations on values of the wrong shape. -/
inductive Err where
  | CalledProcessError (returncode : Int) (cmd : List String)
  | IncusCommandError (msg : String)
  | InstanceError (msg : String)
  | ConfigurationError (msg : String)
  | RuntimeError (msg : String)
  | TypeError (msg : String)
  | AttributeError (msg : String)
  | KeyError (msg : String)
deriving DecidableEq

/-- YAML / JSON values, as produced by the YAML loader and the JSON
decoder.  Python `None` is `null`; mappings keep document order, as
Python dicts keep insertion order. -/
inductive Yaml where
  | str (s : String)
  | int (n : Int)
  | bool (b : Bool)
  | null
  | list (xs : List Yaml)
  | map (kvs : List (String × Yaml))

/-- Key lookup in a mapping's key/value list (Python dict indexing;
keys of a dict are unique, so first match suffices). -/
def lookupKey (k : String) : List (String × Yaml) → Option Yaml
  | [] => none
  | (k₂, v) :: rest => if k₂ = k then some v else lookupKey k rest

/-- Python truthiness of a YAML value (`if not x`). -/
def Yaml.truthy : Yaml → Bool
  | .str s => s ≠ ""
  | .int n => n ≠ 0
  | .bool b => b
  | .null => false
  | .list xs => !xs.isEmpty
  | .map kvs => !kvs.isEmpty

/-- Outcome of one external command, as observed by `subprocess.run`:
either success with captured stdout, or a non-zero exit with the exit
status and the captured stdout/stderr. -/
inductive CmdOutcome where
  | success (out : String)
  | failure (returncode : Int) (out : String) (errOut : String)

/-- Python `str.strip()`: drop leading and trailing whitespace.
(Defined over the character list so that concrete values reduce in the
kernel.) -/
def pyStrip (s : String) : String :=
  String.mk
    (((s.data.dropWhile Char.isWhitespace).reverse.dropWhile
        Char.isWhitespace).reverse)

/-- Python `c in s` for a single character. -/
def pyContains (s : String) (c : Char) : Bool := s.data.contains c

/-- The failure message `_run_command` builds when `capture_output` is
false: it cannot quote stderr, so it names the full command line. -/
def cmd_failed_msg (cmd : List String) : String :=
  "Command " ++ String.intercalate " " ("incus" :: cmd) ++ " failed"

/-- `IncusCLI._run_command` (incus_cli.py lines 25-51): run the command,
return stdout on success; on `CalledProcessError` build the error
message (from stderr when output was captured, from the command line
otherwise) and either return the captured stdout (`allow_failure`) or
raise `IncusCommandError`.  The echo of the command line (`quiet`) has
no effect on the result and is not modelled. -/
def _run_command (cmd : List String) (outcome : CmdOutcome)
    (capture_output : Bool := true) (allow_failure : Bool := false) :
    Except Err String :=
  match outcome with
  | .success out => .ok out
  | .failure _ out errOut =>
    let error_message :=
      if capture_output then "Failed: " ++ pyStrip errOut
      else cmd_failed_msg cmd
    if allow_failure then .ok out
    else .error (.IncusCommandError error_message)

/-- Argument list built by `IncusCLI.exec` (incus_cli.py lines 53-58). -/
def exec_cmd (name : String) (command : List String)
    (cwd : Option String := none) : List String :=
  "exec" :: ((match cwd with | some c => ["--cwd", c] | none => []) ++
    [name, "--"] ++ command)

/-! ## Shared-folder establishment (`IncusCLI.create_shared_folder`,
incus_cli.py lines 105-157)

The procedure issues three kinds of external commands: `config device
add`, `config device remove`, and the in-guest mount-table check
`exec grep -wq /incant /proc/mounts`.  The world gives each physical
command's outcome by its 0-based issue index within its kind; the trace
counts how many commands of each kind were issued. -/

/-- Outcome oracle for `create_shared_folder`: success/failure of the
k-th device-add, device-remove and mount-check command. -/
structure CSFWorld where
  addOk : Nat → Bool
  removeOk : Nat → Bool
  checkOk : Nat → Bool

/-- Counts of external commands issued so far by
`create_shared_folder`. -/
structure CSFTrace where
  adds : Nat
  removes : Nat
  checks : Nat
deriving DecidableEq

/-- The device-add argument list (with or without the `shift=true`
ownership-mapping flag); source is the host's current directory. -/
def shared_folder_cmd (name cwd : String) (shiftFlag : Bool) : List String :=
  ["config", "device", "add", name, name ++ "_shared_incant", "disk",
   "source=" ++ cwd, "path=/incant"] ++ (if shiftFlag then ["shift=true"] else [])

/-- The device-remove argument list. -/
def device_remove_cmd (name : String) : List String :=
  ["config", "device", "remove", name, name ++ "_shared_incant"]

/-- The inner quick-check loop (`for attempt in range(3)`): check the
in-guest mount table up to `n` times, returning the updated trace and
whether a check succeeded.  A failed check is caught
(`except IncusCommandError`); the 1-second sleeps between attempts do
not affect the result and are not modelled. -/
def csfInner (w : CSFWorld) : Nat → CSFTrace → CSFTrace × Bool
  | 0, t => (t, false)
  | n + 1, t =>
    if w.checkOk t.checks then ({ t with checks := t.checks + 1 }, true)
    else csfInner w n { t with checks := t.checks + 1 }

/-- The outer retry loop (`for _ in range(10)`): run the 3 quick mount
checks; on success return `True`; otherwise remove and re-add the
device (either command's failure raises `IncusCommandError`, which
propagates) and retry.  Exhausting the fuel raises
`InstanceError("Shared folder creation failed.")`.  `shiftFlag` records
which form of the add command is being re-issued: the Python code
mutated `command` in place, so re-adds reuse the form that last
succeeded. -/
def csfOuter (name cwd : String) (w : CSFWorld) (shiftFlag : Bool) :
    Nat → CSFTrace → Except Err Bool × CSFTrace
  | 0, t => (.error (.InstanceError "Shared folder creation failed."), t)
  | n + 1, t =>
    match csfInner w 3 t with
    | (t1, true) => (.ok true, t1)
    | (t1, false) =>
      let rOk := w.removeOk t1.removes
      let t2 := { t1 with removes := t1.removes + 1 }
      if rOk then
        let aOk := w.addOk t2.adds
        let t3 := { t2 with adds := t2.adds + 1 }
        if aOk then csfOuter name cwd w shiftFlag n t3
        else (.error (.IncusCommandError
          (cmd_failed_msg (shared_folder_cmd name cwd shiftFlag))), t3)
      else (.error (.IncusCommandError
        (cmd_failed_msg (device_remove_cmd name))), t2)

/-- `IncusCLI.create_shared_folder`: first attempt the device-add with
`shift=true`; if it fails, retry once without the flag (a failure of
the fallback propagates as `IncusCommandError`); then enter the
10-iteration verify/re-attach loop. -/
def create_shared_folder (name cwd : String) (w : CSFWorld) :
    Except Err Bool × CSFTrace :=
  let t1 : CSFTrace := ⟨1, 0, 0⟩
  if w.addOk 0 then csfOuter name cwd w true 10 t1
  else
    let t2 : CSFTrace := ⟨2, 0, 0⟩
    if w.addOk 1 then csfOuter name cwd w false 10 t2
    else (.error (.IncusCommandError
      (cmd_failed_msg (shared_folder_cmd name cwd false))), t2)

lemma csfInner_all_false (w : CSFWorld) (hc : ∀ k, w.checkOk k = false) :
    ∀ (n : Nat) (t : CSFTrace),
      csfInner w n t = ({ t with checks := t.checks + n }, false) := by
  intro n
  induction n with
  | zero => intro t; simp [csfInner]
  | succ n ih =>
    intro t
    simp only [csfInner, hc, if_false, Bool.false_eq_true, ih]
    congr 2
    omega

lemma csfOuter_all_false (name cwd : String) (w : CSFWorld) (shiftFlag : Bool)
    (hc : ∀ k, w.checkOk k = false) (hr : ∀ k, w.removeOk k = true)
    (ha : ∀ k, w.addOk k = true) :
    ∀ (n : Nat) (t : CSFTrace),
      csfOuter name cwd w shiftFlag n t =
        (.error (.InstanceError "Shared folder creation failed."),
         ⟨t.adds + n, t.removes + n, t.checks + 3 * n⟩) := by
  intro n
  induction n with
  | zero => intro t; simp [csfOuter]
  | succ n ih =>
    intro t
    simp only [csfOuter, csfInner_all_false w hc, hr, ha, if_true, ih]
    congr 2 <;> omega

/-- C4: if the in-guest mount check never reports the shared folder
mounted (and the device add/remove commands themselves succeed), the
establishment procedure stops after exactly 10 outer re-attach
attempts — 30 mount checks, 10 device-removals, 11 device-adds in all —
and raises `InstanceError` with the "Shared folder creation failed."
message; it never loops unboundedly (the outer loop is a `range(10)`). -/
theorem create_shared_folder_exhausts_after_ten (name cwd : String)
    (w : CSFWorld) (hc : ∀ k, w.checkOk k = false)
    (hr : ∀ k, w.removeOk k = true) (ha : ∀ k, w.addOk k = true) :
    create_shared_folder name cwd w =
      (.error (.InstanceError "Shared folder creation failed."),
       ⟨11, 10, 30⟩) := by
  simp [create_shared_folder, ha, csfOuter_all_false name cwd w true hc hr ha]

/-- Witness for C4 at a concrete world whose mount check always fails. -/
theorem create_shared_folder_exhausts_after_ten_witness :
    create_shared_folder "web" "/home/user/proj"
      ⟨fun _ => true, fun _ => true, fun _ => false⟩ =
      (.error (.InstanceError "Shared folder creation failed."),
       ⟨11, 10, 30⟩) :=
  create_shared_folder_exhausts_after_ten "web" "/home/user/proj" _
    (fun _ => rfl) (fun _ => rfl) (fun _ => rfl)

/-- C5: if the optimistic device-add with `shift=true` fails, the
fallback device-add without the flag succeeds, and the very first
in-guest mount check reports `/incant` mounted, then establishment
succeeds having issued exactly 2 device-adds, 0 device-removals and 1
mount check. -/
theorem create_shared_folder_fallback_first_check (name cwd : String)
    (w : CSFWorld) (h0 : w.addOk 0 = false) (h1 : w.addOk 1 = true)
    (hc : w.checkOk 0 = true) :
    create_shared_folder name cwd w = (.ok true, ⟨2, 0, 1⟩) := by
  simp [create_shared_folder, h0, h1, csfOuter, csfInner, hc]

/-- Witness for C5 at a concrete world: first add fails, later adds
succeed, every mount check succeeds. -/
theorem create_shared_folder_fallback_first_check_witness :
    create_shared_folder "web" "/home/user/proj"
      ⟨fun k => decide (0 < k), fun _ => true, fun _ => true⟩ =
      (.ok true, ⟨2, 0, 1⟩) :=
  create_shared_folder_fallback_first_check "web" "/home/user/proj" _
    rfl rfl rfl

/-! ## Readiness prober (`IncusCLI.is_agent_running` /
`is_agent_usable` / `is_instance_booted` / `is_instance_ready`,
incus_cli.py lines 180-219) -/

/-- Oracle for one readiness probe of an instance:
* `instInfo` — outcome of `get_instance_info` (the state query plus
  JSON decoding);
* `execTrueErr` — `none` when the no-op `exec true` succeeds, otherwise
  the stderr of the failed command (carried on the raised
  `IncusCommandError`);
* `whichOk` — whether `exec which systemctl` succeeds;
* `systemctlOut` — output of `exec systemctl is-system-running`
  (invoked with `allow_failure`, so it always yields a string). -/
structure ReadyWorld where
  instInfo : Except Err Yaml
  execTrueErr : Option String
  whichOk : Bool
  systemctlOut : String

/-- Python `d.get(k, default)`: only mappings have `.get`. -/
def dict_get (y : Yaml) (k : String) (d : Yaml) : Except Err Yaml :=
  match y with
  | .map kvs => .ok ((lookupKey k kvs).getD d)
  | _ => .error (.AttributeError "\x27get\x27")

/-- `IncusCLI.is_agent_running`: the instance info's
`state.processes` field (defaults: `{}` then `-2`) is positive.
A non-integer value would make Python's `>` raise `TypeError`. -/
def is_agent_running (w : ReadyWorld) : Except Err Bool := do
  let info ← w.instInfo
  let st ← dict_get info "state" (.map [])
  let p ← dict_get st "processes" (.int (-2))
  match p with
  | .int n => pure (decide (0 < n))
  | _ => .error (.TypeError "\x27>\x27 not supported")

/-- `IncusCLI.is_agent_usable`: run a no-op `exec true`; success means
usable; failure whose stripped stderr is the specific
"VM agent isn't currently running" message means "not yet"; any other
failure re-raises the `IncusCommandError` (whose message quotes the
stripped stderr, per `_run_command` with captured output). -/
def is_agent_usable (w : ReadyWorld) : Except Err Bool :=
  match w.execTrueErr with
  | none => .ok true
  | some errOut =>
    if pyStrip errOut = "Error: VM agent isn\x27t currently running" then .ok false
    else .error (.IncusCommandError ("Failed: " ++ pyStrip errOut))

/-- `IncusCLI.is_instance_booted`: probe for `systemctl`; its absence
raises `RuntimeError` ("systemctl not found in instance"); otherwise
ask `systemctl is-system-running` (allowing failure) and report true
iff the stripped output is `running` or `degraded`. -/
def is_instance_booted (w : ReadyWorld) : Except Err Bool :=
  if !w.whichOk then .error (.RuntimeError "systemctl not found in instance")
  else .ok (["running", "degraded"].contains (pyStrip w.systemctlOut))

/-- `IncusCLI.is_instance_ready`: the three-stage ladder.  The result
pairs the returned value (or raised exception) with the number of times
the booted-check (`is_instance_booted`) was invoked.  The second
source parameter is named `verbose` and only controls progress
messages; it never alters the control flow. -/
def is_instance_ready (w : ReadyWorld) (verbose : Bool) :
    Except Err Bool × Nat :=
  match is_agent_running w with
  | .error e => (.error e, 0)
  | .ok false => (.ok false, 0)
  | .ok true =>
    match is_agent_usable w with
    | .error e => (.error e, 0)
    | .ok false => (.ok false, 0)
    | .ok true =>
      match is_instance_booted w with
      | .error e => (.error e, 1)
      | .ok b => (.ok b, 1)

/-- C1 counterexample: a probe where the guest agent is running
(positive process count) and usable (the no-op exec succeeds) but the
init system reports `starting`.  With the second argument false — the
claim's `full=false` — the readiness check still invokes the
booted-check (count 1, not 0) and returns false, not true: the flag is
`verbose`, not `full`, and `SystemBooted` is always evaluated. -/
theorem is_instance_ready_flag_counterexample :
    is_instance_ready
      ⟨.ok (.map [("state", .map [("processes", .int 1)])]),
       none, true, "starting"⟩ false ≠ (.ok true, 0) ∧
    is_instance_ready
      ⟨.ok (.map [("state", .map [("processes", .int 1)])]),
       none, true, "starting"⟩ false = (.ok false, 1) := by
  constructor
  · intro h
    have : (1 : Nat) = 0 := congrArg Prod.snd h
    simp at this
  · rfl

/-- C1 amended: `is_instance_ready(name, verbose)` evaluates the same
stages for either value of its flag (the flag only controls progress
messages); it short-circuits false at the first failing stage, invokes
the booted-check exactly when `AgentRunning` and `AgentUsable` both
hold, and returns true iff all three stages hold.  The orchestrator's
agent-only fast path calls `is_agent_running` / `is_agent_usable`
directly rather than through a `full` parameter. -/
theorem is_instance_ready_evaluates_all_stages (w : ReadyWorld)
    (v₁ v₂ : Bool) :
    is_instance_ready w v₁ = is_instance_ready w v₂ ∧
    ((is_instance_ready w v₁).2 = 1 ↔
      is_agent_running w = .ok true ∧ is_agent_usable w = .ok true) ∧
    ((is_instance_ready w v₁).1 = .ok true ↔
      is_agent_running w = .ok true ∧ is_agent_usable w = .ok true ∧
        is_instance_booted w = .ok true) := by
  refine ⟨rfl, ?_, ?_⟩ <;>
  · cases hr : is_agent_running w with
    | error e => simp [is_instance_ready, hr]
    | ok b =>
      cases b with
      | false => simp [is_instance_ready, hr]
      | true =>
        cases hu : is_agent_usable w with
        | error e => simp [is_instance_ready, hr, hu]
        | ok b₂ =>
          cases b₂ with
          | false => simp [is_instance_ready, hr, hu]
          | true =>
            cases hb : is_instance_booted w with
            | error e => simp [is_instance_ready, hr, hu, hb]
            | ok b₃ => cases b₃ <;> simp [is_instance_ready, hr, hu, hb]

/-! ## Interactive shell (`IncusCLI.shell`, incus_cli.py lines 418-430) -/

/-- Python's repr of a list of strings, as interpolated into
`CalledProcessError`'s message. -/
def pyListRepr (xs : List String) : String :=
  "[" ++ String.intercalate ", " (xs.map (fun s => "\x27" ++ s ++ "\x27")) ++ "]"

/-- `str(subprocess.CalledProcessError)` for a non-zero exit status. -/
def calledProcessErrorStr (cmd : List String) (returncode : Nat) : String :=
  "Command \x27" ++ pyListRepr cmd ++ "\x27 returned non-zero exit status " ++
    toString returncode ++ "."

/-- `IncusCLI.shell`: runs `incus shell <name>` with the host's stdio
attached and `check=True`, so a non-zero exit status of the remote
shell raises `CalledProcessError`, which the handler converts into
`InstanceError("Failed to open shell in <name>: <e>")`.  On a zero
exit the method returns `None` (it never returns the exit code). -/
def shell (name : String) (exitCode : Nat) : Except Err Unit :=
  if exitCode ≠ 0 then
    .error (.InstanceError ("Failed to open shell in " ++ name ++ ": " ++
      calledProcessErrorStr ["incus", "shell", name] exitCode))
  else .ok ()

/-- C2: evaluating `shell` at the failing input of the repository's own
test (`test_shell_handles_nonzero_exit`, exit status 1): the code
raises `InstanceError` instead of completing normally with the exit
code, contradicting the test's expectation that no exception is raised
and 1 is returned. -/
theorem shell_raises_on_nonzero_exit :
    shell "test-instance" 1 =
      .error (.InstanceError
        ("Failed to open shell in test-instance: Command \x27" ++
         "[\x27incus\x27, \x27shell\x27, \x27test-instance\x27]" ++
         "\x27 returned non-zero exit status 1.")) := by
  rfl

/-! ## Existence probe (`IncusCLI.is_instance`, incus_cli.py lines
221-227, over `get_instance_info` and `_run_command`) -/

/-- `IncusCLI.get_instance_info`: the state query through
`_run_command` (output captured, failure not allowed).  The JSON
decoding of the successful output is irrelevant to the existence probe
and is not modelled; the raw stdout is returned. -/
def get_instance_info (name : String) (queryOutcome : CmdOutcome) :
    Except Err String :=
  _run_command ["query", "/1.0/instances/" ++ name ++ "?recursion=1"]
    queryOutcome

/-- `IncusCLI.is_instance`: query the instance's state and return true
on success; the handler catches only `subprocess.CalledProcessError`
(returning false) — but `_run_command` converts every command failure
into `IncusCommandError`, so that handler can never match and the
exception propagates. -/
def is_instance (name : String) (queryOutcome : CmdOutcome) :
    Except Err Bool :=
  match get_instance_info name queryOutcome with
  | .ok _ => .ok true
  | .error e =>
    match e with
    | .CalledProcessError _ _ => .ok false
    | _ => .error e

/-- C3: probing a non-existent instance — the state query exits
non-zero with a "not found" stderr — makes `is_instance` raise
`IncusCommandError` instead of returning false: the
`except subprocess.CalledProcessError` clause is dead code because
`_run_command` re-raises as `IncusCommandError`. -/
theorem is_instance_raises_when_absent :
    is_instance "ghost" (.failure 1 "" "Error: Instance not found") =
      .error (.IncusCommandError "Failed: Error: Instance not found") := by
  rfl

/-! ## Provisioning a command or script (`IncusCLI.provision`,
incus_cli.py lines 265-303) -/

/-- Oracle for one `provision` call:
* `singleOk` — outcome of the single-line `exec sh -c <text>`;
* `pushOk` / `pushErrOut` — outcome (and stderr) of `file push`;
* `chmodOk`, `scriptOk`, `rmOk` — outcomes of the three stages of the
  in-guest compound command `chmod +x p && p && rm p` (a stage runs
  only if the previous ones succeeded, by `&&` short-circuiting). -/
structure ProvisionWorld where
  singleOk : Bool
  pushOk : Bool
  pushErrOut : String
  chmodOk : Bool
  scriptOk : Bool
  rmOk : Bool

/-- Which temporary files remain after a `provision` call: the local
`mkstemp` file and its pushed remote copy. -/
structure FileState where
  localTempExists : Bool
  remoteTempExists : Bool
deriving DecidableEq

/-- `IncusCLI.provision`: a step without a newline is executed as
`sh -c <text>` with working directory `/incant`; a step with a newline
is written to a local temporary file, pushed to the instance, then
executed via `sh -c "chmod +x p && p && rm p"` — so the remote copy is
removed only when chmod, the script and rm all succeed, while the
`finally` block always removes the local temporary file.  The result
pairs the outcome with the files left behind. -/
def provision (name temp_path : String) (w : ProvisionWorld)
    (text : String) : Except Err Unit × FileState :=
  if !(pyContains text '\n') then
    ((if w.singleOk then .ok ()
      else .error (.IncusCommandError (cmd_failed_msg
        (exec_cmd name ["sh", "-c", text] (some "/incant"))))),
     ⟨false, false⟩)
  else
    if !w.pushOk then
      (.error (.IncusCommandError ("Failed: " ++ pyStrip w.pushErrOut)),
       ⟨false, false⟩)
    else
      ((if w.chmodOk && w.scriptOk && w.rmOk then .ok ()
        else .error (.IncusCommandError (cmd_failed_msg
          (exec_cmd name ["sh", "-c",
            "chmod +x " ++ temp_path ++ " && " ++ temp_path ++
              " && rm " ++ temp_path])))),
       ⟨false, !(w.chmodOk && w.scriptOk && w.rmOk)⟩)

/-- C6 counterexample: a two-line script whose push succeeds but whose
in-guest execution fails.  The call raises (execution failure
propagates) and the remote copy is left behind — cleanup of the remote
file is not guaranteed on the execution-failure exit path, because the
`rm` is chained after the script with `&&`. -/
theorem provision_remote_copy_left_counterexample :
    (provision "web" "/tmp/incant_x"
        ⟨true, true, "", true, false, true⟩ "#!/bin/sh\nfalse").2 =
      ⟨false, true⟩ ∧
    (provision "web" "/tmp/incant_x"
        ⟨true, true, "", true, false, true⟩ "#!/bin/sh\nfalse").1 ≠
      .ok () := by
  constructor
  · rfl
  · intro h
    simp only [provision,
      show pyContains "#!/bin/sh\nfalse" '\n' = true from rfl] at h
    simp at h

/-- C6 amended: for every multi-line provisioning step, the local
temporary copy is removed on every exit path (the `finally` block), but
the remote copy is removed only when the pushed script's in-guest
execution chain (chmod, the script itself, rm) fully succeeds: it is
left behind exactly when the push succeeded and that chain failed, and
the call succeeds iff push and all three chained stages succeed. -/
theorem provision_cleanup_paths (name temp_path text : String)
    (so po co sco ro : Bool) (perr : String)
    (hnl : pyContains text '\n' = true) :
    (provision name temp_path ⟨so, po, perr, co, sco, ro⟩ text).2.localTempExists
        = false ∧
    ((provision name temp_path ⟨so, po, perr, co, sco, ro⟩ text).2.remoteTempExists
        = true ↔ po = true ∧ (co && sco && ro) = false) ∧
    ((provision name temp_path ⟨so, po, perr, co, sco, ro⟩ text).1 = .ok () ↔
      po = true ∧ co = true ∧ sco = true ∧ ro = true) := by
  cases po <;> cases co <;> cases sco <;> cases ro <;>
    simp [provision, hnl]

/-- Witness for C6 amended at a concrete failing script execution. -/
theorem provision_cleanup_paths_witness :
    (provision "web" "/tmp/incant_x"
        ⟨true, true, "", true, false, true⟩ "#!/bin/sh\nfalse").2.localTempExists
        = false ∧
    ((provision "web" "/tmp/incant_x"
        ⟨true, true, "", true, false, true⟩ "#!/bin/sh\nfalse").2.remoteTempExists
        = true ↔ true = true ∧ (true && false && true) = false) ∧
    ((provision "web" "/tmp/incant_x"
        ⟨true, true, "", true, false, true⟩ "#!/bin/sh\nfalse").1 = .ok () ↔
      true = true ∧ true = true ∧ false = true ∧ true = true) :=
  provision_cleanup_paths "web" "/tmp/incant_x" "#!/bin/sh\nfalse"
    true true true false true "" (by rfl)

/-! ## Configuration access helpers (Python duck-typed dict
operations).  The claims only exercise mapping-shaped values; for other
shapes the model raises the built-in error standing for Python's
duck-typing failure. -/

/-- Python `y[k]` subscripting. -/
def Yaml.indexE (y : Yaml) (k : String) : Except Err Yaml :=
  match y with
  | .map kvs =>
    match lookupKey k kvs with
    | some v => .ok v
    | none => .error (.KeyError k)
  | _ => .error (.TypeError "object is not subscriptable")

/-- Python `k in y` membership for a mapping (key membership). -/
def Yaml.hasKeyE (y : Yaml) (k : String) : Except Err Bool :=
  match y with
  | .map kvs => .ok ((lookupKey k kvs).isSome)
  | _ => .error (.TypeError "argument of type is not iterable")

/-- Python `y.items()`, in insertion order. -/
def Yaml.itemsE (y : Yaml) : Except Err (List (String × Yaml)) :=
  match y with
  | .map kvs => .ok kvs
  | _ => .error (.AttributeError "\x27items\x27")

/-! ## Static config validation (`ConfigManager.validate_config`,
config_manager.py lines 102-128) -/

/-- The accepted top-level instance fields. -/
def accepted_fields : List String :=
  ["image", "vm", "profiles", "config", "devices", "network", "type",
   "wait", "provision", "shared_folder"]

/-- Validation of one instance entry: require an `image` key, and
reject the first top-level field (in document order) that is not in
`accepted_fields`.  The values of the fields — in particular the shape
of `provision` and of its steps — are never inspected. -/
def validate_instance (name : String) (inst : Yaml) : Except Err Unit :=
  match inst with
  | .map kvs =>
    if (lookupKey "image" kvs).isNone then
      .error (.ConfigurationError
        ("Instance \x27" ++ name ++
         "\x27 is missing required \x27image\x27 field."))
    else
      match kvs.find? (fun kv => !accepted_fields.contains kv.1) with
      | some kv => .error (.ConfigurationError
          ("Unknown field \x27" ++ kv.1 ++ "\x27 in instance \x27" ++
           name ++ "\x27."))
      | none => .ok ()
  | _ => .error (.TypeError "argument of type is not iterable")

/-- The validation loop over the instance entries, in document order;
the first error aborts. -/
def validate_instances : List (String × Yaml) → Except Err Unit
  | [] => .ok ()
  | (nm, inst) :: rest =>
    match validate_instance nm inst with
    | .ok () => validate_instances rest
    | .error e => .error e

/-- `ConfigManager.validate_config`: require a truthy config with an
`instances` key, then validate each instance entry. -/
def validate_config (config_data : Yaml) : Except Err Unit :=
  if !config_data.truthy then
    .error (.ConfigurationError "No configuration loaded.")
  else
    match config_data.hasKeyE "instances" with
    | .error e => .error e
    | .ok false => .error (.ConfigurationError "No instances found in config")
    | .ok true =>
      match config_data.indexE "instances" with
      | .error e => .error e
      | .ok insts =>
        match insts.itemsE with
        | .error e => .error e
        | .ok ikvs => validate_instances ikvs

/-- C7: config validation accepts, without any error, both a
provisioning step whose `copy` value is not a mapping and a
provisioning step mapping with two keys (`copy` and `ssh`):
`validate_config` never inspects the shape of `provision` values, so
these documents are not rejected at validation time — contradicting
the repository's own tests (test_invalid_configs.py:
`test_copy_step_invalid_field_types`,
`test_provision_step_multiple_keys`), which expect a
`ConfigurationError` for such documents. -/
theorem validate_config_accepts_malformed_steps :
    validate_config (.map [("instances", .map [("test", .map
      [("image", .str "ubuntu"),
       ("provision", .list [.map [("copy", .str "not-a-mapping")]])])])]) =
      .ok () ∧
    validate_config (.map [("instances", .map [("test", .map
      [("image", .str "ubuntu"),
       ("provision", .list [.map [("copy", .str "a"),
         ("ssh", .str "b")]])])])]) = .ok () := by
  constructor <;> rfl

/-! ## Lifecycle orchestrator (`Incant.check_config`, `Incant.up`,
`Incant.list_instances`, incant.py lines 106-154 and 259-264) -/

/-- `Incant.check_config`: a falsy config raises "No configuration
loaded."; a config without an `instances` key raises "No instances
found in config". -/
def check_config (config_data : Yaml) : Except Err Unit :=
  if !config_data.truthy then
    .error (.ConfigurationError "No configuration loaded.")
  else
    match config_data.hasKeyE "instances" with
    | .error e => .error e
    | .ok true => .ok ()
    | .ok false => .error (.ConfigurationError "No instances found in config")

/-- Outcome oracle for the creation pass of `up`: success/failure of
the `launch` command for a given instance name, and the failed
command's stderr. -/
structure UpWorld where
  createOk : String → Bool
  createErrOut : String → String

/-- Externally visible actions of the creation pass of `up`: either
the "Skipping <name>: No image defined." error report (no command
issued), or a `create_instance` invocation (one external `launch`
command) with the instance's image value. -/
inductive UpEvent where
  | skippedNoImage (name : String)
  | launched (name : String) (image : Yaml)

/-- The loop filter of `up` (`if name and instance_name != name:
continue`): with a requested name, entries with a different name are
passed over. -/
def skipEntry (only : Option String) (iname : String) : Bool :=
  match only with
  | some n₂ => iname != n₂
  | none => false

/-- `instance_data.get("image")`, with Python `None` for a missing
key. -/
def entryImage (kvs : List (String × Yaml)) : Yaml :=
  (lookupKey "image" kvs).getD .null

/-- The creation pass of `Incant.up` (incant.py lines 123-154): for
each configured instance (in document order), skip entries not matching
the requested name; report and skip — `continue`, not abort — entries
whose `image` is missing or falsy; otherwise issue the create command,
whose failure raises `IncusCommandError` and aborts the pass.  The
result pairs the outcome with the ordered list of actions. -/
def up_createPass (w : UpWorld) (only : Option String) :
    List (String × Yaml) → Except Err Unit × List UpEvent
  | [] => (.ok (), [])
  | (iname, idata) :: rest =>
    if skipEntry only iname then
      up_createPass w only rest
    else
      match idata with
      | .map kvs =>
        if !(entryImage kvs).truthy then
          ((up_createPass w only rest).1,
           .skippedNoImage iname :: (up_createPass w only rest).2)
        else if w.createOk iname then
          ((up_createPass w only rest).1,
           .launched iname (entryImage kvs) ::
             (up_createPass w only rest).2)
        else
          (.error (.IncusCommandError
             ("Failed: " ++ pyStrip (w.createErrOut iname))),
           [.launched iname (entryImage kvs)])
      | _ => (.error (.AttributeError "\x27get\x27"), [])

/-- `Incant.up` through its creation pass (incant.py lines 112-154):
check the config, construct the CLI wrapper (which issues no command),
raise `InstanceError` if a requested name is not a configured instance,
then run the creation pass.  The second pass (readiness wait,
shared-folder creation, provisioning, lines 156-199) runs strictly
after the creation pass and is never reached when the name check
raises; it is outside this model. -/
def up (w : UpWorld) (config_data : Yaml) (name : Option String) :
    Except Err Unit × List UpEvent :=
  match check_config config_data with
  | .error e => (.error e, [])
  | .ok () =>
    match config_data.indexE "instances" with
    | .error e => (.error e, [])
    | .ok insts =>
      match name with
      | some n =>
        match insts.hasKeyE n with
        | .error e => (.error e, [])
        | .ok false =>
          (.error (.InstanceError
            ("Instance \x27" ++ n ++ "\x27 not found in config.")), [])
        | .ok true =>
          match insts.itemsE with
          | .error e => (.error e, [])
          | .ok ikvs => up_createPass w (some n) ikvs
      | none =>
        match insts.itemsE with
        | .error e => (.error e, [])
        | .ok ikvs => up_createPass w none ikvs

/-- `Incant.list_instances` (incant.py lines 259-264): check the
config, then echo each key of the `instances` mapping, in document
order.  The returned list is the sequence of echoed names. -/
def list_instances (config_data : Yaml) : Except Err (List String) :=
  match check_config config_data with
  | .error e => .error e
  | .ok () =>
    match config_data.indexE "instances" with
    | .error e => .error e
    | .ok (.map ikvs) => .ok (ikvs.map Prod.fst)
    | .ok _ => .error (.TypeError "object is not iterable")

/-- C8: requesting `up` for a name that is not among the configured
instances fails with `InstanceError` whose message mentions the name,
and the action trace is empty: no create, query, or exec command was
issued before the failure. -/
theorem up_missing_instance_fails_before_commands (w : UpWorld)
    (kvs ikvs : List (String × Yaml)) (n : String)
    (hin : lookupKey "instances" kvs = some (.map ikvs))
    (hn : lookupKey n ikvs = none) :
    up w (.map kvs) (some n) =
      (.error (.InstanceError
        ("Instance \x27" ++ n ++ "\x27 not found in config.")), []) ∧
    ∃ pre post,
      "Instance \x27" ++ n ++ "\x27 not found in config." = pre ++ n ++ post := by
  have hne : kvs.isEmpty = false := by
    cases kvs with
    | nil => simp [lookupKey] at hin
    | cons a l => rfl
  refine ⟨?_, "Instance \x27", "\x27 not found in config.", rfl⟩
  simp [up, check_config, Yaml.truthy, hne, Yaml.hasKeyE, hin,
    Yaml.indexE, hn]

/-- Witness for C8: a config with a single instance `web`, asked to
bring up `db`. -/
theorem up_missing_instance_fails_before_commands_witness :
    up ⟨fun _ => true, fun _ => ""⟩
      (.map [("instances", .map [("web", .map [])])]) (some "db") =
      (.error (.InstanceError
        ("Instance \x27" ++ "db" ++ "\x27 not found in config.")), []) ∧
    ∃ pre post,
      "Instance \x27" ++ "db" ++ "\x27 not found in config." =
        pre ++ "db" ++ post :=
  up_missing_instance_fails_before_commands ⟨fun _ => true, fun _ => ""⟩
    [("instances", .map [("web", .map [])])] [("web", .map [])] "db"
    rfl rfl

lemma up_createPass_append (w : UpWorld) (only : Option String)
    (pre rest : List (String × Yaml))
    (h : (up_createPass w only pre).1 = .ok ()) :
    up_createPass w only (pre ++ rest) =
      ((up_createPass w only rest).1,
       (up_createPass w only pre).2 ++ (up_createPass w only rest).2) := by
  induction pre with
  | nil => simp [up_createPass]
  | cons a pre ih =>
    obtain ⟨iname, idata⟩ := a
    cases hskip : skipEntry only iname with
    | true =>
      simp only [up_createPass, List.cons_append, hskip, if_true] at h ⊢
      exact ih h
    | false =>
      simp only [up_createPass, List.cons_append, hskip,
        Bool.false_eq_true, if_false] at h ⊢
      cases idata with
      | map kvs =>
        cases himg : (entryImage kvs).truthy with
        | false =>
          simp only [himg, Bool.not_false, if_true] at h ⊢
          simp [List.append_eq, ih h]
        | true =>
          simp only [himg, Bool.not_true, Bool.false_eq_true, if_false]
            at h ⊢
          cases hcr : w.createOk iname with
          | true =>
            simp only [hcr, if_true] at h ⊢
            simp [List.append_eq, ih h]
          | false =>
            simp only [hcr] at h
            simp at h
      | str s => simp at h
      | int n₃ => simp at h
      | bool b => simp at h
      | null => simp at h
      | list xs => simp at h

lemma up_createPass_launched_mem (w : UpWorld) (only : Option String) :
    ∀ (l : List (String × Yaml)) {j : String} {img : Yaml},
      UpEvent.launched j img ∈ (up_createPass w only l).2 →
        j ∈ l.map Prod.fst := by
  intro l
  induction l with
  | nil => intro j img h; simp [up_createPass] at h
  | cons a rest ih =>
    intro j img h
    obtain ⟨iname, idata⟩ := a
    cases hskip : skipEntry only iname with
    | true =>
      simp only [up_createPass, hskip, if_true] at h
      exact List.mem_cons_of_mem _ (ih h)
    | false =>
      simp only [up_createPass, hskip, Bool.false_eq_true, if_false] at h
      cases idata with
      | map kvs =>
        cases himg : (entryImage kvs).truthy with
        | false =>
          simp only [himg, Bool.not_false, if_true, List.mem_cons] at h
          rcases h with h | h
          · exact absurd h (by simp)
          · exact List.mem_cons_of_mem _ (ih h)
        | true =>
          simp only [himg, Bool.not_true, Bool.false_eq_true, if_false] at h
          cases hcr : w.createOk iname with
          | true =>
            simp only [hcr, if_true, List.mem_cons] at h
            rcases h with h | h
            · cases h; simp
            · exact List.mem_cons_of_mem _ (ih h)
          | false =>
            simp only [hcr, Bool.false_eq_true, if_false,
              List.mem_cons, List.not_mem_nil, or_false] at h
            cases h; simp
      | str s => simp at h
      | int n₃ => simp at h
      | bool b => simp at h
      | null => simp at h
      | list xs => simp at h

/-- C10: during the creation pass of `up`, an instance entry whose
configuration lacks a (truthy) `image` is skipped: the
"Skipping <name>: No image defined." error report appears in the
action trace, no create command is ever issued for that instance, and
the remaining entries are still processed — the pass's outcome and the
rest of the trace are exactly those of the other entries, instead of
the whole invocation aborting. -/
theorem up_skips_instance_without_image (w : UpWorld)
    (pre post : List (String × Yaml)) (i : String)
    (d : List (String × Yaml))
    (hd : ((lookupKey "image" d).getD .null).truthy = false)
    (hpre : (up_createPass w none pre).1 = .ok ())
    (hi : i ∉ pre.map Prod.fst) (hi₂ : i ∉ post.map Prod.fst) :
    up_createPass w none (pre ++ (i, .map d) :: post) =
      ((up_createPass w none post).1,
       (up_createPass w none pre).2 ++
         .skippedNoImage i :: (up_createPass w none post).2) ∧
    UpEvent.skippedNoImage i ∈
      (up_createPass w none (pre ++ (i, .map d) :: post)).2 ∧
    ∀ img, UpEvent.launched i img ∉
      (up_createPass w none (pre ++ (i, .map d) :: post)).2 := by
  have hstep : up_createPass w none ((i, .map d) :: post) =
      ((up_createPass w none post).1,
       UpEvent.skippedNoImage i :: (up_createPass w none post).2) := by
    simp [up_createPass, skipEntry, entryImage, hd]
  have hmain : up_createPass w none (pre ++ (i, .map d) :: post) =
      ((up_createPass w none post).1,
       (up_createPass w none pre).2 ++
         .skippedNoImage i :: (up_createPass w none post).2) := by
    rw [up_createPass_append w none pre _ hpre, hstep]
  refine ⟨hmain, ?_, ?_⟩
  · rw [hmain]
    simp
  · intro img hmem
    rw [hmain] at hmem
    simp only [List.mem_append, List.mem_cons] at hmem
    rcases hmem with hmem | hmem | hmem
    · exact hi (up_createPass_launched_mem w none pre hmem)
    · cases hmem
    · exact hi₂ (up_createPass_launched_mem w none post hmem)

/-- Witness for C10: a three-entry config whose middle entry `noimg`
has an empty instance mapping (no `image`); the first and last entries
carry images and their creates succeed. -/
theorem up_skips_instance_without_image_witness :
    up_createPass ⟨fun _ => true, fun _ => ""⟩ none
        ([("a", .map [("image", .str "img1")])] ++
         ("noimg", .map []) :: [("b", .map [("image", .str "img2")])]) =
      ((up_createPass ⟨fun _ => true, fun _ => ""⟩ none
          [("b", .map [("image", .str "img2")])]).1,
       (up_createPass ⟨fun _ => true, fun _ => ""⟩ none
          [("a", .map [("image", .str "img1")])]).2 ++
         .skippedNoImage "noimg" ::
           (up_createPass ⟨fun _ => true, fun _ => ""⟩ none
              [("b", .map [("image", .str "img2")])]).2) ∧
    UpEvent.skippedNoImage "noimg" ∈
      (up_createPass ⟨fun _ => true, fun _ => ""⟩ none
        ([("a", .map [("image", .str "img1")])] ++
         ("noimg", .map []) :: [("b", .map [("image", .str "img2")])])).2 ∧
    ∀ img, UpEvent.launched "noimg" img ∉
      (up_createPass ⟨fun _ => true, fun _ => ""⟩ none
        ([("a", .map [("image", .str "img1")])] ++
         ("noimg", .map []) :: [("b", .map [("image", .str "img2")])])).2 :=
  up_skips_instance_without_image ⟨fun _ => true, fun _ => ""⟩
    [("a", .map [("image", .str "img1")])]
    [("b", .map [("image", .str "img2")])] "noimg" []
    rfl rfl (by simp) (by simp)

/-- C9: for a valid configuration — the `instances` value is a mapping,
whose keys (as a Python dict's keys) are distinct — `list_instances`
outputs exactly the configured instance names, in the order declared in
the document, each name exactly once. -/
theorem list_instances_declared_order_once
    (kvs ikvs : List (String × Yaml))
    (hin : lookupKey "instances" kvs = some (.map ikvs))
    (hnd : (ikvs.map Prod.fst).Nodup) :
    list_instances (.map kvs) = .ok (ikvs.map Prod.fst) ∧
    ∀ nm ∈ ikvs.map Prod.fst, (ikvs.map Prod.fst).count nm = 1 := by
  have hne : kvs.isEmpty = false := by
    cases kvs with
    | nil => simp [lookupKey] at hin
    | cons a l => rfl
  constructor
  · simp [list_instances, check_config, Yaml.truthy, hne, Yaml.hasKeyE,
      hin, Yaml.indexE]
  · intro nm hmem
    exact List.count_eq_one_of_mem hnd hmem

/-- Witness for C9: a config declaring `web` then `db`. -/
theorem list_instances_declared_order_once_witness :
    list_instances (.map [("instances",
        .map [("web", .map []), ("db", .map [])])]) =
      .ok ([("web", Yaml.map []), ("db", Yaml.map [])].map Prod.fst) ∧
    ∀ nm ∈ [("web", Yaml.map []), ("db", Yaml.map [])].map Prod.fst,
      ([("web", Yaml.map []), ("db", Yaml.map [])].map Prod.fst).count nm
        = 1 :=
  list_instances_declared_order_once
    [("instances", .map [("web", .map []), ("db", .map [])])]
    [("web", .map []), ("db", .map [])] rfl (by simp)

end Incant
